import Mathlib

/-!
Shallow embedding of the dual-estimator consensus engine of the
roofiq-learn-loop repository: `src/services/models/DualLearningEngine.ts`
together with the `VisionModel` and `GeometryModel` classes and the type
declarations they use (`types/roof-analysis.ts`, `types/dual-learning.ts`).

Modelling conventions:
* JavaScript numbers are modelled as exact rationals (`ℚ`).
* `Date.now()` and the wall clock are explicit parameters (`now`, `month`,
  `hour`); elapsed processing times are explicit parameters as well.
* The asynchronous Supabase backend call of each estimator is modelled by
  its resolved outcome (`InvokeResult`): per the client contract the call
  resolves with either an error or the parsed data.
* JavaScript truthiness tests on optional values are translated explicitly
  (`none` and `some 0` are falsy for numbers, `none` and `some ""` for
  strings).
* `Math.round` is `fun q => ⌊q + 1/2⌋`, which is the JS semantics on the
  exact rationals that arise here.
-/

namespace RoofIQ

/-- Roof facet record (`types/roof-analysis.ts`, `RoofFacet`).  The TS union
type of the `type` field is modelled as a plain string because
`DualLearningEngine.mergeFacets` defensively tests the field for falsiness,
which is only meaningful on loosely typed data. -/
structure RoofFacet where
  id : String
  polygon : List (ℚ × ℚ)
  area : ℚ
  pitch : String
  type : String
  confidence : ℚ
deriving DecidableEq, Repr

/-- Linear roof measurements (`types/roof-analysis.ts`, `RoofMeasurements`). -/
structure RoofMeasurements where
  ridges : ℚ
  valleys : ℚ
  hips : ℚ
  rakes : ℚ
  eaves : ℚ
  gutters : ℚ
  stepFlashing : ℚ
  drip : ℚ
deriving DecidableEq, Repr

/-- Season literal of `ImageAnalysisInput.seasonality`. -/
inductive Seasonality where
  | spring
  | summer
  | fall
  | winter
deriving DecidableEq, Repr

/-- Time-of-day literal of `ImageAnalysisInput.timeOfDay`. -/
inductive TimeOfDay where
  | morning
  | afternoon
  | evening
deriving DecidableEq, Repr

/-- Per-estimator output (`types/dual-learning.ts`, `ModelPrediction`). -/
structure ModelPrediction where
  estimate : ℚ
  facets : List RoofFacet
  measurements : RoofMeasurements
  confidence : ℚ
  uncertainty : ℚ
  reasoning : List String
  modelVersion : String
  processingTime : ℚ
deriving DecidableEq, Repr

/-- Confidence interval of an uncertainty analysis. -/
structure ConfidenceRange where
  min : ℚ
  max : ℚ
deriving DecidableEq, Repr

/-- Derived uncertainty record (`types/dual-learning.ts`, `UncertaintyAnalysis`). -/
structure UncertaintyAnalysis where
  variance : ℚ
  confidenceRange : ConfidenceRange
  riskFactors : List String
  needsVerification : Bool
deriving DecidableEq, Repr

/-- Input of the vision estimator (`types/dual-learning.ts`,
`ImageAnalysisInput`); optional fields are `Option`s. -/
structure ImageAnalysisInput where
  address : String
  satelliteImage : Option String
  coordinates : ℚ × ℚ
  imageQuality : Option ℚ
  seasonality : Option Seasonality
  timeOfDay : Option TimeOfDay
deriving DecidableEq, Repr

/-- Neighborhood lookup result (`types/dual-learning.ts`,
`GeometryAnalysisInput.neighborhoodContext`). -/
structure NeighborhoodContext where
  averageRoofArea : ℚ
  commonPitches : List String
  typicalComplexity : ℚ
deriving DecidableEq, Repr

/-- Input of the geometry estimator (`types/dual-learning.ts`,
`GeometryAnalysisInput`). -/
structure GeometryAnalysisInput where
  address : String
  footprintData : Option String
  buildingAge : Option ℚ
  architecturalStyle : Option String
  neighborhoodContext : Option NeighborhoodContext
deriving DecidableEq, Repr

/-- The `reportSummary` part of a backend base prediction; only
`roofComplexityScore` is read by the estimators. -/
structure ReportSummaryIn where
  roofComplexityScore : ℚ
deriving DecidableEq, Repr

/-- The `data.prediction` payload returned by the `analyze-roof` backend
function, restricted to the fields the estimators read. -/
structure BasePrediction where
  totalArea : ℚ
  facets : List RoofFacet
  measurements : RoofMeasurements
  reportSummary : Option ReportSummaryIn
deriving DecidableEq, Repr

/-- Resolved outcome of `supabase.functions.invoke('analyze-roof', …)`:
the client resolves with `{ data, error }` where exactly one side is
populated. -/
inductive InvokeResult where
  | failure (error : String)
  | success (prediction : BasePrediction)
deriving DecidableEq, Repr

/-- JS truthiness of an optional number (`undefined`, `null`, `0`, `NaN`
are falsy; `NaN` does not arise in the exact-rational model). -/
def truthyNum : Option ℚ → Bool
  | none => false
  | some q => q != 0

/-- JS truthiness of an optional string (`undefined` and `""` are falsy). -/
def truthyStr : Option String → Bool
  | none => false
  | some s => s != ""

/-- JS `Math.round` on the exact rationals used here. -/
def jround (q : ℚ) : ℤ := ⌊q + 1/2⌋

/-- `Math.round` re-embedded into the numeric type. -/
def jroundQ (q : ℚ) : ℚ := (jround q : ℚ)

/-- JS `String.prototype.includes` (substring containment). -/
def jincludes (r s : String) : Bool := decide (s.data <:+: r.data)

/-- Truthy-and-below test `o && o < c` on an optional number. -/
def truthyLt (o : Option ℚ) (c : ℚ) : Bool :=
  match o with
  | some q => q != 0 && decide (q < c)
  | none => false

/-- Truthy-and-above test `o && o > c` on an optional number. -/
def truthyGt (o : Option ℚ) (c : ℚ) : Bool :=
  match o with
  | some q => q != 0 && decide (q > c)
  | none => false

/-- Optional-chaining comparison `rs?.roofComplexityScore > c`. -/
def complexityGt (o : Option ReportSummaryIn) (c : ℚ) : Bool :=
  match o with
  | some rs => decide (rs.roofComplexityScore > c)
  | none => false

/-- Optional-chaining comparison `rs?.roofComplexityScore < c`. -/
def complexityLt (o : Option ReportSummaryIn) (c : ℚ) : Bool :=
  match o with
  | some rs => decide (rs.roofComplexityScore < c)
  | none => false

namespace VisionModel

/-- `VisionModel.calculateUncertainty`: accumulate fixed risk penalties and
derive the confidence range from the resulting variance percentage. -/
def calculateUncertainty (input : ImageAnalysisInput) (prediction : BasePrediction) :
    UncertaintyAnalysis :=
  let poorQuality : Bool := truthyLt input.imageQuality 0.7
  let shadows : Prop :=
    input.timeOfDay = some TimeOfDay.morning ∨ input.timeOfDay = some TimeOfDay.evening
  let complexStructure : Prop := prediction.facets.length > 8
  let riskFactors : List String :=
    (if poorQuality then ["Poor satellite image quality"] else [])
    ++ (if input.seasonality = some Seasonality.winter then
          ["Winter imagery may have snow/shadow issues"] else [])
    ++ (if shadows then ["Long shadows may affect measurement accuracy"] else [])
    ++ (if complexStructure then ["Complex roof structure with many facets"] else [])
  let uncertaintyScore : ℚ :=
    (if poorQuality then 0.3 else 0)
    + (if input.seasonality = some Seasonality.winter then 0.1 else 0)
    + (if shadows then 0.15 else 0)
    + (if complexStructure then 0.2 else 0)
  let baseArea := if prediction.totalArea = 0 then 2000 else prediction.totalArea
  let variancePercent := min (uncertaintyScore * 0.4) 0.3
  { variance := uncertaintyScore
    confidenceRange :=
      { min := baseArea * (1 - variancePercent)
        max := baseArea * (1 + variancePercent) }
    riskFactors := riskFactors
    needsVerification := decide (uncertaintyScore > 0.4) }

/-- `VisionModel.calculateVisionConfidence`: base 0.8, multiplied by a truthy
image quality, reduced for complex structures, floored at 0.3. -/
def calculateVisionConfidence (prediction : BasePrediction)
    (input : ImageAnalysisInput) : ℚ :=
  let confidence : ℚ := 0.8
  let confidence :=
    match input.imageQuality with
    | some q => if q ≠ 0 then confidence * q else confidence
    | none => confidence
  let confidence := if prediction.facets.length > 6 then confidence * 0.9 else confidence
  let confidence :=
    match prediction.reportSummary with
    | some rs => if rs.roofComplexityScore > 0.8 then confidence * 0.85 else confidence
    | none => confidence
  max confidence 0.3

/-- `VisionModel.adjustFacetConfidence`: main facets ×1.1, dormers ×0.9,
clamped at 1.0. -/
def adjustFacetConfidence (facet : RoofFacet) (_input : ImageAnalysisInput) : ℚ :=
  let confidence := facet.confidence
  let confidence :=
    if facet.type = "main" then confidence * 1.1
    else if facet.type = "dormer" then confidence * 0.9
    else confidence
  min confidence 1.0

/-- `VisionModel.enhanceFacetsWithVisionData`: per-facet confidence
adjustment.  The extra `visionMetadata` property attached in TS is outside
the `RoofFacet` record and is read by nothing in the engine, so it is not
modelled. -/
def enhanceFacetsWithVisionData (facets : List RoofFacet)
    (input : ImageAnalysisInput) : List RoofFacet :=
  facets.map (fun facet => { facet with confidence := adjustFacetConfidence facet input })

/-- `VisionModel.generateVisionReasoning`: the human-readable trace lines. -/
def generateVisionReasoning (prediction : BasePrediction)
    (input : ImageAnalysisInput) (uncertainty : UncertaintyAnalysis) : List String :=
  ["Analyzed satellite imagery for " ++ input.address,
   "Detected " ++ toString prediction.facets.length ++ " roof facets"]
  ++ (if truthyGt input.imageQuality 0.8 then
        ["High-quality satellite imagery provides clear roof boundaries"] else [])
  ++ (if uncertainty.riskFactors.length > 0 then
        ["Identified " ++ toString uncertainty.riskFactors.length ++ " uncertainty factors"]
      else [])
  ++ (if complexityGt prediction.reportSummary 0.7 then
        ["Complex roof structure detected - recommend EagleView verification"] else [])
  ++ ["Vision model confidence: "
        ++ toString (jround (calculateVisionConfidence prediction input * 100)) ++ "%"]

/-- The success branch of `VisionModel.predict`: assembling the
`ModelPrediction` from the backend base prediction (`elapsed` models
`Date.now() - startTime`). -/
def makePrediction (basePrediction : BasePrediction) (input : ImageAnalysisInput)
    (elapsed : ℚ) : ModelPrediction :=
  let uncertainty := calculateUncertainty input basePrediction
  { estimate := basePrediction.totalArea
    facets := enhanceFacetsWithVisionData basePrediction.facets input
    measurements := basePrediction.measurements
    confidence := calculateVisionConfidence basePrediction input
    uncertainty := uncertainty.variance
    reasoning := generateVisionReasoning basePrediction input uncertainty
    modelVersion := "vision-v2.1"
    processingTime := elapsed }

/-- `VisionModel.predict`: a backend error is rethrown annotated with
`Vision model error:`; otherwise the processed prediction is returned. -/
def predict (r : InvokeResult) (input : ImageAnalysisInput) (elapsed : ℚ) :
    Except String ModelPrediction :=
  match r with
  | .failure msg => .error ("Vision model error: " ++ msg)
  | .success basePrediction => .ok (makePrediction basePrediction input elapsed)

end VisionModel

namespace GeometryModel

/-- `GeometryModel.calculateGeometricUncertainty`: accumulate penalties for
missing or suspicious structural context. -/
def calculateGeometricUncertainty (input : GeometryAnalysisInput)
    (prediction : BasePrediction) : UncertaintyAnalysis :=
  let ageOld : Bool := truthyLt input.buildingAge 1950
  let complexHigh : Bool := complexityGt prediction.reportSummary 0.8
  let riskFactors : List String :=
    (if truthyStr input.footprintData then []
     else ["No detailed footprint data available"])
    ++ (if truthyNum input.buildingAge then
          (if ageOld then ["Older building - non-standard construction practices"] else [])
        else ["Unknown building age affects structural assumptions"])
    ++ (if truthyStr input.architecturalStyle then [] else ["Unknown architectural style"])
    ++ (match input.neighborhoodContext with
        | none => ["No neighborhood context for validation"]
        | some nc =>
          if |prediction.totalArea - nc.averageRoofArea| / nc.averageRoofArea > 0.5 then
            ["Significantly different from neighborhood average"]
          else [])
    ++ (if complexHigh then ["Highly complex roof structure"] else [])
  let uncertaintyScore : ℚ :=
    (if truthyStr input.footprintData then 0 else 0.2)
    + (if truthyNum input.buildingAge then (if ageOld then 0.15 else 0) else 0.1)
    + (if truthyStr input.architecturalStyle then 0 else 0.1)
    + (match input.neighborhoodContext with
       | none => 0.15
       | some nc =>
         if |prediction.totalArea - nc.averageRoofArea| / nc.averageRoofArea > 0.5 then 0.2
         else 0)
    + (if complexHigh then 0.25 else 0)
  let baseArea := if prediction.totalArea = 0 then 2000 else prediction.totalArea
  let variancePercent := min (uncertaintyScore * 0.3) 0.25
  { variance := uncertaintyScore
    confidenceRange :=
      { min := baseArea * (1 - variancePercent)
        max := baseArea * (1 + variancePercent) }
    riskFactors := riskFactors
    needsVerification := decide (uncertaintyScore > 0.35) }

/-- `GeometryModel.calculateGeometryConfidence`: base 0.85 with structural
data multipliers, clamped to [0.4, 1.0]. -/
def calculateGeometryConfidence (prediction : BasePrediction)
    (input : GeometryAnalysisInput) : ℚ :=
  let confidence : ℚ := 0.85
  let confidence :=
    if truthyStr input.footprintData then confidence * 1.1 else confidence * 0.8
  let confidence := if truthyNum input.buildingAge then confidence * 1.05 else confidence
  let confidence :=
    if truthyStr input.architecturalStyle then confidence * 1.05 else confidence
  let confidence :=
    match input.neighborhoodContext with
    | some nc =>
      let areaDeviation := |prediction.totalArea - nc.averageRoofArea| / nc.averageRoofArea
      if areaDeviation < 0.2 then confidence * 1.1
      else if areaDeviation > 0.5 then confidence * 0.8
      else confidence
    | none => confidence
  let confidence :=
    match prediction.reportSummary with
    | some rs => if rs.roofComplexityScore < 0.5 then confidence * 1.05 else confidence
    | none => confidence
  min (max confidence 0.4) 1.0

/-- `GeometryModel.enhanceMeasurements`: architectural-style-specific
linear-measurement multipliers. -/
def enhanceMeasurements (measurements : RoofMeasurements)
    (input : GeometryAnalysisInput) : RoofMeasurements :=
  if input.architecturalStyle = some "Victorian" then
    { measurements with
        ridges := measurements.ridges * 1.2
        valleys := measurements.valleys * 1.3
        hips := measurements.hips * 0.8 }
  else if input.architecturalStyle = some "Ranch" then
    { measurements with
        ridges := measurements.ridges * 0.8
        valleys := measurements.valleys * 0.7
        eaves := measurements.eaves * 1.1 }
  else measurements

/-- `GeometryModel.adjustGeometricConfidence`: large main facets ×1.1,
large dormers ×0.9, clamped at 1.0. -/
def adjustGeometricConfidence (facet : RoofFacet)
    (_input : GeometryAnalysisInput) : ℚ :=
  let confidence := facet.confidence
  let confidence :=
    if facet.type = "main" ∧ facet.area > 800 then confidence * 1.1 else confidence
  let confidence :=
    if facet.type = "dormer" ∧ facet.area > 300 then confidence * 0.9 else confidence
  min confidence 1.0

/-- `GeometryModel.enhanceFacetsWithGeometryData`: per-facet confidence
adjustment (the defensive non-array guard of the TS code is the identity on
well-typed facet lists; the extra `geometryMetadata` property is outside the
`RoofFacet` record and read by nothing in the engine). -/
def enhanceFacetsWithGeometryData (facets : List RoofFacet)
    (input : GeometryAnalysisInput) : List RoofFacet :=
  facets.map (fun facet => { facet with confidence := adjustGeometricConfidence facet input })

/-- `GeometryModel.generateGeometryReasoning`: the human-readable trace. -/
def generateGeometryReasoning (prediction : BasePrediction)
    (input : GeometryAnalysisInput) (uncertainty : UncertaintyAnalysis) : List String :=
  ["Analyzed structural footprint for " ++ input.address]
  ++ (if truthyStr input.architecturalStyle then
        ["Applied " ++ input.architecturalStyle.getD "" ++ " architectural style adjustments"]
      else [])
  ++ (if truthyNum input.buildingAge then
        (let age := input.buildingAge.getD 0
         let ageCategory :=
           if age < 1950 then "historic" else if age < 1990 then "traditional" else "modern"
         ["Building age suggests " ++ ageCategory ++ " construction methods"])
      else [])
  ++ (match input.neighborhoodContext with
      | some nc =>
        let deviation := |prediction.totalArea - nc.averageRoofArea| / nc.averageRoofArea
        if deviation < 0.2 then ["Roof area consistent with neighborhood patterns"]
        else ["Roof area " ++ (if deviation > 0.5 then "significantly" else "moderately")
                ++ " different from neighborhood average"]
      | none => [])
  ++ ["Detected " ++ toString prediction.facets.length ++ " geometric sections"]
  ++ (if uncertainty.riskFactors.length > 0 then
        ["Identified " ++ toString uncertainty.riskFactors.length
          ++ " geometric uncertainty factors"]
      else [])
  ++ ["Geometry model confidence: "
        ++ toString (jround (calculateGeometryConfidence prediction input * 100)) ++ "%"]

/-- The success branch of `GeometryModel.predict`. -/
def makePrediction (basePrediction : BasePrediction) (input : GeometryAnalysisInput)
    (elapsed : ℚ) : ModelPrediction :=
  let uncertainty := calculateGeometricUncertainty input basePrediction
  { estimate := basePrediction.totalArea
    facets := enhanceFacetsWithGeometryData basePrediction.facets input
    measurements := enhanceMeasurements basePrediction.measurements input
    confidence := calculateGeometryConfidence basePrediction input
    uncertainty := uncertainty.variance
    reasoning := generateGeometryReasoning basePrediction input uncertainty
    modelVersion := "geometry-v2.1"
    processingTime := elapsed }

/-- `GeometryModel.predict`: a backend error is rethrown annotated with
`Geometry model error:`; otherwise the processed prediction is returned. -/
def predict (r : InvokeResult) (input : GeometryAnalysisInput) (elapsed : ℚ) :
    Except String ModelPrediction :=
  match r with
  | .failure msg => .error ("Geometry model error: " ++ msg)
  | .success basePrediction => .ok (makePrediction basePrediction input elapsed)

end GeometryModel

/-- Three-level label used both for the consensus confidence and for the
learning-flag priority (`'high' | 'medium' | 'low'`). -/
inductive ConfidenceLevel where
  | high
  | medium
  | low
deriving DecidableEq, Repr

/-- The optional learning flag of a `ConsensusResult`. -/
structure LearningFlag where
  priority : ConfidenceLevel
  reason : String
  suggestedAction : String
deriving DecidableEq, Repr

/-- Per-pitch area summary (`types/roof-analysis.ts`, `AreasByPitch`). -/
structure AreasByPitch where
  pitch : String
  area : ℚ
  squares : ℚ
  percentage : ℚ
deriving DecidableEq, Repr

/-- Property details (`types/roof-analysis.ts`, `PropertyDetails`); the two
TS string unions are modelled as strings. -/
structure PropertyDetails where
  stories : ℚ
  estimatedAtticArea : ℚ
  structureComplexity : String
  roofAccessibility : String
  chimneys : ℚ
  skylights : ℚ
  vents : ℚ
deriving DecidableEq, Repr

/-- The `reportSummary` record of a final prediction. -/
structure ReportSummary where
  totalPerimeter : ℚ
  averagePitch : String
  roofComplexityScore : ℚ
deriving DecidableEq, Repr

/-- The `dualModelInsights` record of a final prediction. -/
structure DualModelInsights where
  visionModelStrength : ℚ
  geometryModelStrength : ℚ
  conflictAreas : List String
  learningOpportunities : List String
deriving DecidableEq, Repr

/-- The `finalPrediction` record of a `ConsensusResult`. -/
structure FinalPrediction where
  facets : List RoofFacet
  totalArea : ℚ
  squares : ℚ
  measurements : RoofMeasurements
  predominantPitch : String
  wasteFactor : ℚ
  confidence : ℚ
  areasByPitch : List AreasByPitch
  propertyDetails : PropertyDetails
  reportSummary : ReportSummary
  uncertaintyAnalysis : UncertaintyAnalysis
  dualModelInsights : DualModelInsights
deriving DecidableEq, Repr

/-- The final artifact (`types/dual-learning.ts`, `ConsensusResult`). -/
structure ConsensusResult where
  estimate : ℚ
  confidence : ConfidenceLevel
  modelAgreement : ℚ
  finalPrediction : FinalPrediction
  reasoning : String
  learningFlag : Option LearningFlag
deriving DecidableEq, Repr

/-- Decimal digit list to a natural number. -/
def natOfDigits (ds : List Char) : ℕ :=
  ds.foldl (fun n c => 10 * n + (c.toNat - 48)) 0

/-- Modelled from JS `parseFloat` on the pitch strings occurring here: an
optional sign followed by decimal digits with an optional fractional part;
parsing stops at the first character that cannot extend the number and
yields `none` (JS `NaN`) when no digit was read.  Exponents, leading
whitespace and `Infinity` do not occur in pitch strings and are not
modelled. -/
def jsParseFloat (s : String) : Option ℚ :=
  let signAndRest : ℚ × List Char :=
    match s.data with
    | '-' :: rest => (-1, rest)
    | '+' :: rest => (1, rest)
    | cs => (1, cs)
  let cs1 := signAndRest.2
  let intDigits := cs1.takeWhile Char.isDigit
  let rest1 := cs1.dropWhile Char.isDigit
  let fracDigits : List Char :=
    match rest1 with
    | '.' :: r => r.takeWhile Char.isDigit
    | _ => []
  if intDigits = [] ∧ fracDigits = [] then none
  else
    some (signAndRest.1 * ((natOfDigits intDigits : ℚ)
      + (natOfDigits fracDigits : ℚ) / (10 ^ fracDigits.length : ℚ)))

/-- JS `String.prototype.replace(':', '/')`: replace the first colon. -/
def replaceFirstColonAux : List Char → List Char
  | [] => []
  | c :: cs => if c = ':' then '/' :: cs else c :: replaceFirstColonAux cs

/-- `pitch.replace(':', '/')` on strings. -/
def replaceFirstColon (s : String) : String := ⟨replaceFirstColonAux s.data⟩

namespace DualLearningEngine

/-- The fixed `disagreementThreshold` field of the engine (square feet). -/
def disagreementThreshold : ℚ := 100

/-- `DualLearningEngine.calculateVisionWeight`: base 0.5, +0.2 for high
image quality, +0.1 for afternoon capture, scaled by the prediction's
confidence, floored at 0.1. -/
def calculateVisionWeight (prediction : ModelPrediction)
    (input : ImageAnalysisInput) : ℚ :=
  let weight : ℚ := 0.5
  let weight := if truthyGt input.imageQuality 0.8 then weight + 0.2 else weight
  let weight := if input.timeOfDay = some TimeOfDay.afternoon then weight + 0.1 else weight
  let weight := weight * prediction.confidence
  max weight 0.1

/-- `DualLearningEngine.calculateGeometryWeight`: base 0.5, +0.15 for
footprint data, +0.1 for a truthy building age, +0.15 for neighborhood
context, scaled by confidence, floored at 0.1. -/
def calculateGeometryWeight (prediction : ModelPrediction)
    (input : GeometryAnalysisInput) : ℚ :=
  let weight : ℚ := 0.5
  let weight := if truthyStr input.footprintData then weight + 0.15 else weight
  let weight := if truthyNum input.buildingAge then weight + 0.1 else weight
  let weight := if input.neighborhoodContext.isSome then weight + 0.15 else weight
  let weight := weight * prediction.confidence
  max weight 0.1

/-- `DualLearningEngine.extractRiskFactors`: keep the reasoning lines that
contain one of the four risk keywords. -/
def extractRiskFactors (reasoning : List String) : List String :=
  reasoning.filter (fun r =>
    jincludes r "risk" || jincludes r "uncertainty"
      || jincludes r "shadow" || jincludes r "complex")

/-- `DualLearningEngine.combineUncertaintyAnalysis`. -/
def combineUncertaintyAnalysis (visionPrediction geometryPrediction : ModelPrediction)
    (areaDifference : ℚ) : UncertaintyAnalysis :=
  let combinedVariance := (visionPrediction.uncertainty + geometryPrediction.uncertainty) / 2
  let disagreementVariance :=
    areaDifference / max visionPrediction.estimate geometryPrediction.estimate
  let totalVariance := max combinedVariance disagreementVariance
  let averageEstimate := (visionPrediction.estimate + geometryPrediction.estimate) / 2
  let variancePercent := min (totalVariance * 0.3) 0.4
  { variance := totalVariance
    confidenceRange :=
      { min := averageEstimate * (1 - variancePercent)
        max := averageEstimate * (1 + variancePercent) }
    riskFactors :=
      extractRiskFactors visionPrediction.reasoning
      ++ extractRiskFactors geometryPrediction.reasoning
      ++ (if areaDifference > disagreementThreshold then
            ["Model disagreement detected"] else [])
    needsVerification :=
      decide (totalVariance > 0.4) || decide (areaDifference > disagreementThreshold * 2) }

/-- The default facet substituted when both estimators return no facets. -/
def defaultFacet : RoofFacet :=
  { id := "default-main"
    polygon := [(0, 0), (100, 0), (100, 100), (0, 100)]
    area := 2000
    pitch := "8/12"
    type := "main"
    confidence := 0.5 }

/-- Append a facet to the entry of its type in the insertion-ordered
association list that models the JS object built by the `reduce` in
`mergeFacets`, adding a new entry at the end for a fresh type. -/
def addToGroup : List (String × List RoofFacet) → RoofFacet → List (String × List RoofFacet)
  | [], f => [(f.type, [f])]
  | (t, fs) :: rest, f =>
    if f.type = t then (t, fs ++ [f]) :: rest else (t, fs) :: addToGroup rest f

/-- The `facetsByType` object of `mergeFacets`: group all facets by type in
first-occurrence key order, skipping facets with a falsy type. -/
def facetsByType (l : List RoofFacet) : List (String × List RoofFacet) :=
  l.foldl (fun acc f => if f.type = "" then acc else addToGroup acc f) []

/-- One step of the `forEach` over `Object.entries(facetsByType)`: a
single-facet group passes through unchanged, a multi-facet group collapses
into one synthetic facet stamped with `Date.now()` (modelled by `now`).
The `(t, [])` case cannot arise from `facetsByType`. -/
def mergeEntry (now : ℕ) : String × List RoofFacet → RoofFacet
  | (_, [f]) => f
  | (t, fs) =>
    { id := "merged-" ++ t ++ "-" ++ toString now
      polygon := ((fs.head?).map RoofFacet.polygon).getD []
      area := (fs.map RoofFacet.area).sum / (fs.length : ℚ)
      pitch := ((fs.head?).map RoofFacet.pitch).getD ""
      type := t
      confidence := (fs.map RoofFacet.confidence).sum / (fs.length : ℚ) }

/-- `DualLearningEngine.mergeFacets` (`now` models the `Date.now()` call
that mints synthetic merged-facet ids).  The defensive `Array.isArray`
guards of the TS code are the identity on well-typed facet lists. -/
def mergeFacets (now : ℕ) (visionFacets geometryFacets : List RoofFacet) :
    List RoofFacet :=
  if visionFacets.length = 0 ∧ geometryFacets.length = 0 then [defaultFacet]
  else (facetsByType (visionFacets ++ geometryFacets)).map (mergeEntry now)

/-- `DualLearningEngine.mergeMeasurements`: rounded arithmetic means. -/
def mergeMeasurements (vision geometry : RoofMeasurements) : RoofMeasurements :=
  { ridges := jroundQ ((vision.ridges + geometry.ridges) / 2)
    valleys := jroundQ ((vision.valleys + geometry.valleys) / 2)
    hips := jroundQ ((vision.hips + geometry.hips) / 2)
    rakes := jroundQ ((vision.rakes + geometry.rakes) / 2)
    eaves := jroundQ ((vision.eaves + geometry.eaves) / 2)
    gutters := jroundQ ((vision.gutters + geometry.gutters) / 2)
    stepFlashing := jroundQ ((vision.stepFlashing + geometry.stepFlashing) / 2)
    drip := jroundQ ((vision.drip + geometry.drip) / 2) }

/-- `DualLearningEngine.generateConsensusReasoning`. -/
def generateConsensusReasoning (visionPrediction geometryPrediction : ModelPrediction)
    (areaDifference agreementLevel : ℚ) : String :=
  let parts : List String :=
    ["Vision model estimated " ++ toString (jround visionPrediction.estimate) ++ " sq ft",
     "Geometry model estimated " ++ toString (jround geometryPrediction.estimate) ++ " sq ft",
     "Models " ++ (if agreementLevel > 0.9 then "strongly agree"
       else if agreementLevel > 0.8 then "generally agree"
       else "show some disagreement"),
     "Area difference: " ++ toString (jround areaDifference) ++ " sq ft"]
  let parts :=
    if areaDifference > disagreementThreshold then
      parts ++ ["⚠️ Significant model disagreement suggests learning opportunity"]
    else parts
  String.intercalate " • " parts

/-- `DualLearningEngine.assessLearningNeed`. -/
def assessLearningNeed (areaDifference : ℚ) (confidence : ConfidenceLevel)
    (visionPrediction geometryPrediction : ModelPrediction) : Option LearningFlag :=
  if areaDifference > disagreementThreshold * 2 then
    some { priority := ConfidenceLevel.high
           reason := "Major model disagreement"
           suggestedAction := "Upload EagleView report for model learning" }
  else if confidence = ConfidenceLevel.low then
    some { priority := ConfidenceLevel.medium
           reason := "Low confidence prediction"
           suggestedAction := "Consider EagleView verification" }
  else if visionPrediction.uncertainty > 0.5 ∨ geometryPrediction.uncertainty > 0.5 then
    some { priority := ConfidenceLevel.medium
           reason := "High model uncertainty"
           suggestedAction := "EagleView upload would improve future predictions" }
  else none

/-- Insertion-ordered accumulation `acc[k] = (acc[k] || 0) + a` of the
`pitchCounts` object. -/
def addCount : List (String × ℚ) → String → ℚ → List (String × ℚ)
  | [], k, a => [(k, a)]
  | (k0, v) :: rest, k, a =>
    if k0 = k then (k0, v + a) :: rest else (k0, v) :: addCount rest k a

/-- The `pitchCounts` object of `determinePredominantPitch`: area-weighted
pitch totals in insertion order. -/
def pitchCounts (facets : List RoofFacet) : List (String × ℚ) :=
  facets.foldl (fun acc f => addCount acc f.pitch f.area) []

/-- `DualLearningEngine.determinePredominantPitch`: the entry with the
largest accumulated area wins (the JS `reduce` compares
`pitchCounts[a[0]]` with `pitchCounts[b[0]]`, which are the entries' own
values since keys are unique; on an empty entry list the JS `reduce`
throws — unreachable from the engine and modelled by the empty string). -/
def determinePredominantPitch (facets : List RoofFacet) : String :=
  match pitchCounts facets with
  | [] => ""
  | e :: es => (es.foldl (fun a b => if a.2 > b.2 then a else b) e).1

/-- Accumulation step of the `pitchAreas` object of
`calculateAreasByPitch`: add the facet's area and bump the facet count. -/
def addPitchArea : List (String × ℚ × ℚ) → String → ℚ → List (String × ℚ × ℚ)
  | [], k, a => [(k, a, 1)]
  | (k0, ar, n) :: rest, k, a =>
    if k0 = k then (k0, ar + a, n + 1) :: rest else (k0, ar, n) :: addPitchArea rest k a

/-- The `pitchAreas` object of `calculateAreasByPitch`. -/
def pitchAreas (facets : List RoofFacet) : List (String × ℚ × ℚ) :=
  facets.foldl (fun acc f => addPitchArea acc f.pitch f.area) []

/-- `DualLearningEngine.calculateAreasByPitch`. -/
def calculateAreasByPitch (facets : List RoofFacet) : List AreasByPitch :=
  let pa := pitchAreas facets
  let totalArea := (pa.map (fun e => e.2.1)).sum
  pa.map (fun e =>
    { pitch := e.1
      area := e.2.1
      squares := jroundQ (e.2.1 / 100)
      percentage := jroundQ (e.2.1 / totalArea * 100) })

/-- `DualLearningEngine.calculateAveragePitch`:
`parseFloat(f.pitch.replace(':', '/')) || 0`, averaged and rounded. -/
def calculateAveragePitch (facets : List RoofFacet) : String :=
  let pitches := facets.map (fun f => (jsParseFloat (replaceFirstColon f.pitch)).getD 0)
  let avgPitch := pitches.sum / (pitches.length : ℚ)
  toString (jround avgPitch) ++ ":12"

/-- `DualLearningEngine.mergePropertyDetails` (mock merge). -/
def mergePropertyDetails (visionPrediction geometryPrediction : ModelPrediction) :
    PropertyDetails :=
  { stories := 2
    estimatedAtticArea :=
      jroundQ ((visionPrediction.estimate + geometryPrediction.estimate) * 0.3)
    structureComplexity := "Moderate"
    roofAccessibility := "Moderate"
    chimneys := 1
    skylights := 2
    vents := 4 }

/-- `DualLearningEngine.identifyConflictAreas`. -/
def identifyConflictAreas (visionPrediction geometryPrediction : ModelPrediction) :
    List String :=
  (if |(visionPrediction.facets.length : ℤ) - (geometryPrediction.facets.length : ℤ)| > 2 then
     ["Facet count disagreement"] else [])
  ++ (if |visionPrediction.estimate - geometryPrediction.estimate| > disagreementThreshold then
        ["Total area disagreement"] else [])

/-- `DualLearningEngine.identifyLearningOpportunities`. -/
def identifyLearningOpportunities (visionPrediction geometryPrediction : ModelPrediction)
    (areaDifference : ℚ) : List String :=
  (if areaDifference > disagreementThreshold then
     ["Model calibration from EagleView comparison"] else [])
  ++ (if visionPrediction.uncertainty > 0.4 then
        ["Vision model improvement with verified satellite data"] else [])
  ++ (if geometryPrediction.uncertainty > 0.4 then
        ["Geometry model refinement with structural validation"] else [])

/-- `DualLearningEngine.createConsensus` (`now` models the `Date.now()`
call inside `mergeFacets`). -/
def createConsensus (now : ℕ) (visionPrediction geometryPrediction : ModelPrediction)
    (imageInput : ImageAnalysisInput) (geometryInput : GeometryAnalysisInput) :
    ConsensusResult :=
  let areaDifference := |visionPrediction.estimate - geometryPrediction.estimate|
  let averageEstimate := (visionPrediction.estimate + geometryPrediction.estimate) / 2
  let agreementLevel := 1 - areaDifference / averageEstimate
  let visionWeight := calculateVisionWeight visionPrediction imageInput
  let geometryWeight := calculateGeometryWeight geometryPrediction geometryInput
  let totalWeight := visionWeight + geometryWeight
  let consensusEstimate :=
    (visionPrediction.estimate * visionWeight + geometryPrediction.estimate * geometryWeight)
      / totalWeight
  let consensusFacets := mergeFacets now visionPrediction.facets geometryPrediction.facets
  let combinedUncertainty :=
    combineUncertaintyAnalysis visionPrediction geometryPrediction areaDifference
  let confidence : ConfidenceLevel :=
    if agreementLevel > 0.9 ∧ visionPrediction.confidence > 0.8
        ∧ geometryPrediction.confidence > 0.8 then
      ConfidenceLevel.high
    else if agreementLevel > 0.8
        ∨ (visionPrediction.confidence > 0.7 ∧ geometryPrediction.confidence > 0.7) then
      ConfidenceLevel.medium
    else ConfidenceLevel.low
  let reasoning :=
    generateConsensusReasoning visionPrediction geometryPrediction areaDifference agreementLevel
  let learningFlag :=
    assessLearningNeed areaDifference confidence visionPrediction geometryPrediction
  { estimate := consensusEstimate
    confidence := confidence
    modelAgreement := agreementLevel
    finalPrediction :=
      { facets := consensusFacets
        totalArea := consensusEstimate
        squares := jroundQ (consensusEstimate / 100)
        measurements :=
          mergeMeasurements visionPrediction.measurements geometryPrediction.measurements
        predominantPitch := determinePredominantPitch consensusFacets
        wasteFactor := (visionPrediction.estimate * 0.1 + geometryPrediction.estimate * 0.1) / 2
        confidence := (visionPrediction.confidence + geometryPrediction.confidence) / 2
        areasByPitch := calculateAreasByPitch consensusFacets
        propertyDetails := mergePropertyDetails visionPrediction geometryPrediction
        reportSummary :=
          { totalPerimeter :=
              (consensusFacets.map (fun facet => (facet.polygon.length : ℚ) * 10)).sum
            averagePitch := calculateAveragePitch consensusFacets
            roofComplexityScore := min ((consensusFacets.length : ℚ) / 10) 1 }
        uncertaintyAnalysis := combinedUncertainty
        dualModelInsights :=
          { visionModelStrength := visionWeight / totalWeight
            geometryModelStrength := geometryWeight / totalWeight
            conflictAreas := identifyConflictAreas visionPrediction geometryPrediction
            learningOpportunities :=
              identifyLearningOpportunities visionPrediction geometryPrediction
                areaDifference } }
    reasoning := reasoning
    learningFlag := learningFlag }

/-- `assessImageQuality` mock: 0.85 with an image, 0.6 without. -/
def assessImageQuality (satelliteImage : Option String) : ℚ :=
  if truthyStr satelliteImage then 0.85 else 0.6

/-- `detectSeasonality` from the current month (0-based as in JS). -/
def detectSeasonality (month : ℕ) : Seasonality :=
  if 2 ≤ month ∧ month ≤ 4 then Seasonality.spring
  else if 5 ≤ month ∧ month ≤ 7 then Seasonality.summer
  else if 8 ≤ month ∧ month ≤ 10 then Seasonality.fall
  else Seasonality.winter

/-- `detectTimeOfDay` from the current hour. -/
def detectTimeOfDay (hour : ℕ) : TimeOfDay :=
  if hour < 12 then TimeOfDay.morning
  else if hour < 17 then TimeOfDay.afternoon
  else TimeOfDay.evening

/-- `DualLearningEngine.predict`: build both estimator inputs (with the
mock building-age/style/neighborhood lookups), run both estimators, and
form the consensus.  A rejection of either estimator propagates unchanged
through the engine's `catch`; the `Promise.all` join is linearised with
the vision estimator first.  The mutable `learningMetrics` bookkeeping
does not affect the returned value and is not modelled. -/
def predict (now month hour : ℕ) (visionBackend geometryBackend : InvokeResult)
    (address : String) (satelliteImage : Option String)
    (visionElapsed geometryElapsed : ℚ) : Except String ConsensusResult :=
  let imageInput : ImageAnalysisInput :=
    { address := address
      satelliteImage := satelliteImage
      coordinates := (40.7128, -74.0060)
      imageQuality := some (assessImageQuality satelliteImage)
      seasonality := some (detectSeasonality month)
      timeOfDay := some (detectTimeOfDay hour) }
  let geometryInput : GeometryAnalysisInput :=
    { address := address
      footprintData := none
      buildingAge := some 1985
      architecturalStyle := some "Colonial"
      neighborhoodContext := some
        { averageRoofArea := 2200
          commonPitches := ["6:12", "8:12"]
          typicalComplexity := 0.6 } }
  match VisionModel.predict visionBackend imageInput visionElapsed with
  | Except.error e => Except.error e
  | Except.ok visionPrediction =>
    match GeometryModel.predict geometryBackend geometryInput geometryElapsed with
    | Except.error e => Except.error e
    | Except.ok geometryPrediction =>
      Except.ok (createConsensus now visionPrediction geometryPrediction imageInput geometryInput)

end DualLearningEngine

/-! ### Observations used by the statements -/

/-- Association lookup in the insertion-ordered grouping lists (keys are
unique, so first match is the entry). -/
def groupOf : List (String × List RoofFacet) → String → List RoofFacet
  | [], _ => []
  | (k, fs) :: rest, t => if k = t then fs else groupOf rest t

/-- Forget a facet's id (the only field minted from `Date.now()`). -/
def stripId (f : RoofFacet) : RoofFacet := { f with id := "" }

/-- Forget the ids of all facets of a consensus result. -/
def eraseIds (c : ConsensusResult) : ConsensusResult :=
  { c with finalPrediction :=
      { c.finalPrediction with facets := c.finalPrediction.facets.map stripId } }

/-- The non-id scalar observable of a facet: type, area, confidence. -/
def facetTAC (f : RoofFacet) : String × ℚ × ℚ := (f.type, f.area, f.confidence)

/-! ### Concrete fixtures for the test cases -/

/-- All-zero linear measurements. -/
def measurementsZero : RoofMeasurements :=
  { ridges := 0, valleys := 0, hips := 0, rakes := 0, eaves := 0, gutters := 0,
    stepFlashing := 0, drip := 0 }

/-- A concrete estimator output with the given estimate, facet list,
confidence and uncertainty. -/
def testPrediction (est : ℚ) (facets : List RoofFacet) (conf unc : ℚ) : ModelPrediction :=
  { estimate := est, facets := facets, measurements := measurementsZero,
    confidence := conf, uncertainty := unc, reasoning := [],
    modelVersion := "v", processingTime := 0 }

/-- A vision input that grants no weight bonus (quality 0.6 is not above
0.8, morning is not afternoon). -/
def imageInputPlain : ImageAnalysisInput :=
  { address := "1 Main St", satelliteImage := none, coordinates := (0, 0),
    imageQuality := some 0.6, seasonality := some Seasonality.summer,
    timeOfDay := some TimeOfDay.morning }

/-- A geometry input that grants no weight bonus. -/
def geometryInputPlain : GeometryAnalysisInput :=
  { address := "1 Main St", footprintData := none, buildingAge := none,
    architecturalStyle := none, neighborhoodContext := none }

/-- A main facet with pitch 6/12 (used as the vision-side facet). -/
def facetMainA : RoofFacet :=
  { id := "v1", polygon := [(0, 0), (10, 0), (10, 10)], area := 1200,
    pitch := "6/12", type := "main", confidence := 0.8 }

/-- A main facet with pitch 8/12 and a different polygon (used as the
geometry-side facet). -/
def facetMainB : RoofFacet :=
  { id := "g1", polygon := [(0, 0), (20, 0), (20, 20), (0, 20)], area := 1100,
    pitch := "8/12", type := "main", confidence := 0.6 }

/-- Concrete vision input of the risk-factor test: quality 0.5 (a truthy
value below 0.7), summer, afternoon. -/
def c6VisionInput : ImageAnalysisInput :=
  { address := "742 Evergreen Terrace", satelliteImage := some "img",
    coordinates := (0, 0), imageQuality := some 0.5,
    seasonality := some Seasonality.summer, timeOfDay := some TimeOfDay.afternoon }

/-- Concrete geometry input of the risk-factor test: full structural
context, so the geometry estimator reports no risk factor. -/
def c6GeometryInput : GeometryAnalysisInput :=
  { address := "742 Evergreen Terrace", footprintData := some "fp",
    buildingAge := some 1985, architecturalStyle := some "Colonial",
    neighborhoodContext := some
      { averageRoofArea := 2200, commonPitches := ["6:12", "8:12"],
        typicalComplexity := 0.6 } }

/-- Concrete single facet of the risk-factor test's base predictions. -/
def c6Facet : RoofFacet :=
  { id := "f1", polygon := [(0, 0), (10, 0), (10, 10), (0, 10)], area := 1950,
    pitch := "8/12", type := "main", confidence := 0.8 }

/-- Backend base prediction handed to the vision estimator. -/
def c6VisionBase : BasePrediction :=
  { totalArea := 1950, facets := [c6Facet], measurements := measurementsZero,
    reportSummary := none }

/-- Backend base prediction handed to the geometry estimator. -/
def c6GeometryBase : BasePrediction :=
  { totalArea := 2000, facets := [c6Facet], measurements := measurementsZero,
    reportSummary := none }

/-- The vision estimator's actual output on the risk-factor test input. -/
def c6VisionPrediction : ModelPrediction :=
  VisionModel.makePrediction c6VisionBase c6VisionInput 0

/-- The geometry estimator's actual output on the risk-factor test input. -/
def c6GeometryPrediction : ModelPrediction :=
  GeometryModel.makePrediction c6GeometryBase c6GeometryInput 0

/-- A vision input with no image quality at all. -/
def imageInputNoQuality : ImageAnalysisInput :=
  { address := "1 Main St", satelliteImage := none, coordinates := (0, 0),
    imageQuality := none, seasonality := some Seasonality.summer,
    timeOfDay := some TimeOfDay.afternoon }

/-! ### Helper lemmas -/

section Helpers

open DualLearningEngine

/-- A confidence range built with variance percentage `min (s * 0.4) 0.3`
stays within 30 percent of the base on both sides. -/
lemma visionRange_aux (base s : ℚ) (hb : 0 ≤ base) :
    base * (1 + min (s * 0.4) 0.3) ≤ base * 1.3
    ∧ base * 0.7 ≤ base * (1 - min (s * 0.4) 0.3) := by
  have h1 : min (s * 0.4) 0.3 ≤ 0.3 := min_le_right _ _
  constructor
  · exact mul_le_mul_of_nonneg_left (by linarith) hb
  · exact mul_le_mul_of_nonneg_left (by linarith) hb

/-- The fixed disagreement entry contains none of the four risk keywords,
so `extractRiskFactors` can never produce it from reasoning lines. -/
lemma mdd_not_mem (l : List String) :
    "Model disagreement detected" ∉ extractRiskFactors l := by
  intro h
  have h2 := (List.mem_filter.mp h).2
  exact absurd h2 (by decide)

/-- A merged entry differs between two `Date.now()` stamps only in its id. -/
lemma stripId_mergeEntry (n1 n2 : ℕ) (e : String × List RoofFacet) :
    stripId (mergeEntry n1 e) = stripId (mergeEntry n2 e) := by
  obtain ⟨t, fs⟩ := e
  match fs with
  | [] => rfl
  | [f] => rfl
  | a :: b :: rest => rfl

/-- `mergeFacets` is independent of the `Date.now()` stamp after erasing
facet ids. -/
lemma mergeFacets_map_stripId (n1 n2 : ℕ) (v g : List RoofFacet) :
    (mergeFacets n1 v g).map stripId = (mergeFacets n2 v g).map stripId := by
  unfold mergeFacets
  split
  · rfl
  · rw [List.map_map, List.map_map]
    exact List.map_congr_left (fun e _ => stripId_mergeEntry n1 n2 e)

/-- `pitchCounts` ignores facet ids. -/
lemma pitchCounts_stripId (l : List RoofFacet) :
    pitchCounts (l.map stripId) = pitchCounts l := by
  unfold pitchCounts
  rw [List.foldl_map]
  congr 1

/-- `pitchAreas` ignores facet ids. -/
lemma pitchAreas_stripId (l : List RoofFacet) :
    pitchAreas (l.map stripId) = pitchAreas l := by
  unfold pitchAreas
  rw [List.foldl_map]
  congr 1

/-- Every facet consumer inside `createConsensus` is invariant under the
facet lists agreeing after id erasure. -/
lemma facetObservations_eq (l1 l2 : List RoofFacet)
    (h : l1.map stripId = l2.map stripId) :
    determinePredominantPitch l1 = determinePredominantPitch l2
    ∧ calculateAreasByPitch l1 = calculateAreasByPitch l2
    ∧ calculateAveragePitch l1 = calculateAveragePitch l2
    ∧ (l1.map (fun facet => (facet.polygon.length : ℚ) * 10)).sum
        = (l2.map (fun facet => (facet.polygon.length : ℚ) * 10)).sum
    ∧ l1.length = l2.length := by
  refine ⟨?_, ?_, ?_, ?_, ?_⟩
  · unfold determinePredominantPitch
    rw [← pitchCounts_stripId l1, h, pitchCounts_stripId]
  · unfold calculateAreasByPitch
    rw [← pitchAreas_stripId l1, h, pitchAreas_stripId]
  · unfold calculateAveragePitch
    have e1 : l1.map (fun f => (jsParseFloat (replaceFirstColon f.pitch)).getD 0)
        = (l1.map stripId).map (fun f => (jsParseFloat (replaceFirstColon f.pitch)).getD 0) := by
      rw [List.map_map]; rfl
    have e2 : l2.map (fun f => (jsParseFloat (replaceFirstColon f.pitch)).getD 0)
        = (l2.map stripId).map (fun f => (jsParseFloat (replaceFirstColon f.pitch)).getD 0) := by
      rw [List.map_map]; rfl
    rw [e1, e2, h]
  · have e1 : l1.map (fun facet => (facet.polygon.length : ℚ) * 10)
        = (l1.map stripId).map (fun facet => (facet.polygon.length : ℚ) * 10) := by
      rw [List.map_map]; rfl
    have e2 : l2.map (fun facet => (facet.polygon.length : ℚ) * 10)
        = (l2.map stripId).map (fun facet => (facet.polygon.length : ℚ) * 10) := by
      rw [List.map_map]; rfl
    rw [e1, e2, h]
  · have := congrArg List.length h
    simpa using this

/-- Appending a facet extends the group of its own type. -/
lemma groupOf_addToGroup_self (acc : List (String × List RoofFacet)) (f : RoofFacet) :
    groupOf (addToGroup acc f) f.type = groupOf acc f.type ++ [f] := by
  induction acc with
  | nil => simp [addToGroup, groupOf]
  | cons e rest ih =>
    obtain ⟨k, fs⟩ := e
    by_cases hk : f.type = k
    · subst hk
      simp [addToGroup, groupOf]
    · have hk2 : ¬ (k = f.type) := fun h => hk h.symm
      simp only [addToGroup, if_neg hk, groupOf, if_neg hk2]
      exact ih

/-- Appending a facet leaves the groups of other types unchanged. -/
lemma groupOf_addToGroup_ne (acc : List (String × List RoofFacet)) (f : RoofFacet)
    (t : String) (h : ¬ (f.type = t)) :
    groupOf (addToGroup acc f) t = groupOf acc t := by
  induction acc with
  | nil =>
    show groupOf [(f.type, [f])] t = groupOf [] t
    simp only [groupOf, if_neg h]
  | cons e rest ih =>
    obtain ⟨k, fs⟩ := e
    by_cases hk : f.type = k
    · subst hk
      simp only [addToGroup, if_pos rfl, groupOf, if_neg h]
    · simp only [addToGroup, if_neg hk, groupOf]
      by_cases hkt : k = t
      · rw [if_pos hkt, if_pos hkt]
      · rw [if_neg hkt, if_neg hkt, ih]

/-- The group of a non-empty type in the folded association list is
exactly the type's filter of the input list. -/
lemma groupOf_foldl (l : List RoofFacet) (acc : List (String × List RoofFacet))
    (t : String) (ht : ¬ (t = "")) :
    groupOf (List.foldl (fun acc f => if f.type = "" then acc else addToGroup acc f) acc l) t
      = groupOf acc t ++ l.filter (fun f => f.type = t) := by
  induction l generalizing acc with
  | nil => simp
  | cons f rest ih =>
    simp only [List.foldl_cons, List.filter_cons]
    by_cases h0 : f.type = ""
    · have hft : ¬ (f.type = t) := fun hh => ht (hh.symm.trans h0)
      rw [if_pos h0, ih]
      simp [hft]
    · rw [if_neg h0]
      by_cases hft : f.type = t
      · subst hft
        rw [ih, groupOf_addToGroup_self]
        simp [List.append_assoc]
      · rw [ih, groupOf_addToGroup_ne _ _ _ hft]
        simp [hft]

/-- Key membership after inserting one facet. -/
lemma mem_keys_addToGroup (acc : List (String × List RoofFacet)) (f : RoofFacet) (t : String) :
    t ∈ (addToGroup acc f).map Prod.fst ↔ t ∈ acc.map Prod.fst ∨ t = f.type := by
  induction acc with
  | nil => simp [addToGroup]
  | cons e rest ih =>
    obtain ⟨k, fs⟩ := e
    by_cases hk : f.type = k
    · subst hk
      simp [addToGroup]
      tauto
    · simp only [addToGroup, if_neg hk, List.map_cons, List.mem_cons, ih]
      tauto

/-- Inserting a facet preserves key uniqueness. -/
lemma nodup_keys_addToGroup (acc : List (String × List RoofFacet)) (f : RoofFacet)
    (h : (acc.map Prod.fst).Nodup) : ((addToGroup acc f).map Prod.fst).Nodup := by
  induction acc with
  | nil => simp [addToGroup]
  | cons e rest ih =>
    obtain ⟨k, fs⟩ := e
    simp only [List.map_cons, List.nodup_cons] at h
    by_cases hk : f.type = k
    · subst hk
      show ((if f.type = f.type then (f.type, fs ++ [f]) :: rest
          else (f.type, fs) :: addToGroup rest f).map Prod.fst).Nodup
      rw [if_pos rfl]
      simp only [List.map_cons, List.nodup_cons]
      exact h
    · simp only [addToGroup, if_neg hk, List.map_cons, List.nodup_cons]
      refine ⟨?_, ih h.2⟩
      intro hmem
      rcases (mem_keys_addToGroup rest f k).mp hmem with hm | hm
      · exact h.1 hm
      · exact hk hm.symm

/-- Key membership of the folded association list: exactly the non-empty
facet types occurring in the input. -/
lemma mem_keys_foldl (l : List RoofFacet) (acc : List (String × List RoofFacet)) (t : String) :
    t ∈ (List.foldl (fun acc f => if f.type = "" then acc else addToGroup acc f) acc l).map
        Prod.fst
      ↔ t ∈ acc.map Prod.fst ∨ (¬ (t = "") ∧ ∃ f ∈ l, f.type = t) := by
  induction l generalizing acc with
  | nil => simp
  | cons f rest ih =>
    simp only [List.foldl_cons]
    by_cases h0 : f.type = ""
    · rw [if_pos h0, ih]
      constructor
      · rintro (hm | ⟨ht, ff, hff, hfft⟩)
        · exact Or.inl hm
        · exact Or.inr ⟨ht, ff, List.mem_cons_of_mem f hff, hfft⟩
      · rintro (hm | ⟨ht, ff, hff, hfft⟩)
        · exact Or.inl hm
        · rcases List.mem_cons.mp hff with rfl | hff2
          · exact absurd (hfft.symm.trans h0) ht
          · exact Or.inr ⟨ht, ff, hff2, hfft⟩
    · rw [if_neg h0, ih]
      constructor
      · rintro (hm | ⟨ht, ff, hff, hfft⟩)
        · rcases (mem_keys_addToGroup acc f t).mp hm with hm2 | hm2
          · exact Or.inl hm2
          · exact Or.inr ⟨fun he => h0 (hm2 ▸ he), f, List.mem_cons_self f rest, hm2.symm⟩
        · exact Or.inr ⟨ht, ff, List.mem_cons_of_mem f hff, hfft⟩
      · rintro (hm | ⟨ht, ff, hff, hfft⟩)
        · exact Or.inl ((mem_keys_addToGroup acc f t).mpr (Or.inl hm))
        · rcases List.mem_cons.mp hff with rfl | hff2
          · exact Or.inl ((mem_keys_addToGroup acc ff t).mpr (Or.inr hfft.symm))
          · exact Or.inr ⟨ht, ff, hff2, hfft⟩

/-- Keys of the folded association list are unique. -/
lemma nodup_keys_foldl (l : List RoofFacet) (acc : List (String × List RoofFacet))
    (h : (acc.map Prod.fst).Nodup) :
    ((List.foldl (fun acc f => if f.type = "" then acc else addToGroup acc f) acc l).map
        Prod.fst).Nodup := by
  induction l generalizing acc with
  | nil => exact h
  | cons f rest ih =>
    simp only [List.foldl_cons]
    by_cases h0 : f.type = ""
    · rw [if_pos h0]; exact ih acc h
    · rw [if_neg h0]; exact ih _ (nodup_keys_addToGroup acc f h)

/-- With unique keys, looking an entry's own key up returns its group. -/
lemma groupOf_self (gs : List (String × List RoofFacet)) (h : (gs.map Prod.fst).Nodup) :
    ∀ p ∈ gs, groupOf gs p.1 = p.2 := by
  induction gs with
  | nil => simp
  | cons e rest ih =>
    obtain ⟨k, fs⟩ := e
    simp only [List.map_cons, List.nodup_cons] at h
    rintro p hp
    rcases List.mem_cons.mp hp with rfl | hp2
    · simp [groupOf]
    · have hne : ¬ (k = p.1) := by
        intro hk
        exact h.1 (hk ▸ List.mem_map.mpr ⟨p, hp2, rfl⟩)
      simp only [groupOf, if_neg hne]
      exact ih h.2 p hp2

/-- Mapping over an association list with unique keys equals mapping over
its keys paired with their groups. -/
lemma map_entries {β : Type} (gs : List (String × List RoofFacet))
    (h : (gs.map Prod.fst).Nodup) (g : String × List RoofFacet → β) :
    gs.map g = (gs.map Prod.fst).map (fun t => g (t, groupOf gs t)) := by
  rw [List.map_map]
  apply List.map_congr_left
  intro p hp
  simp only [Function.comp]
  rw [groupOf_self gs h p hp]

/-- Closed form of `mergeEntry` on groups that are not singletons. -/
lemma mergeEntry_of_length_ne_one (now : ℕ) (t : String) (fs : List RoofFacet)
    (h : ¬ (fs.length = 1)) :
    mergeEntry now (t, fs)
      = { id := "merged-" ++ t ++ "-" ++ toString now
          polygon := ((fs.head?).map RoofFacet.polygon).getD []
          area := (fs.map RoofFacet.area).sum / (fs.length : ℚ)
          pitch := ((fs.head?).map RoofFacet.pitch).getD ""
          type := t
          confidence := (fs.map RoofFacet.confidence).sum / (fs.length : ℚ) } := by
  match fs with
  | [] => rfl
  | [f] => exact absurd rfl h
  | a :: b :: rest => rfl

/-- Type, area and confidence of a merged entry only depend on the group
up to permutation. -/
lemma facetTAC_mergeEntry_perm (now : ℕ) (t : String) (fs1 fs2 : List RoofFacet)
    (h : fs1.Perm fs2) :
    facetTAC (mergeEntry now (t, fs1)) = facetTAC (mergeEntry now (t, fs2)) := by
  by_cases h1 : fs1.length = 1
  · obtain ⟨f, rfl⟩ := List.length_eq_one.mp h1
    have h2 : fs2 = [f] := List.perm_singleton.mp h.symm
    subst h2
    rfl
  · have h2 : ¬ (fs2.length = 1) := by rw [← h.length_eq]; exact h1
    rw [mergeEntry_of_length_ne_one now t fs1 h1, mergeEntry_of_length_ne_one now t fs2 h2]
    have ha : (fs1.map RoofFacet.area).sum / (fs1.length : ℚ)
        = (fs2.map RoofFacet.area).sum / (fs2.length : ℚ) := by
      rw [(h.map RoofFacet.area).sum_eq, h.length_eq]
    have hc : (fs1.map RoofFacet.confidence).sum / (fs1.length : ℚ)
        = (fs2.map RoofFacet.confidence).sum / (fs2.length : ℚ) := by
      rw [(h.map RoofFacet.confidence).sum_eq, h.length_eq]
    simp [facetTAC, ha, hc]

/-- The type-area-confidence observations of the grouped merge equal the
filter-based description over the type keys. -/
lemma mergedTAC_eq (now : ℕ) (l : List RoofFacet) :
    ((List.foldl (fun acc f => if f.type = "" then acc else addToGroup acc f) [] l).map
        (mergeEntry now)).map facetTAC
      = ((List.foldl (fun acc f => if f.type = "" then acc else addToGroup acc f) [] l).map
          Prod.fst).map
          (fun t => facetTAC (mergeEntry now (t, l.filter (fun f => f.type = t)))) := by
  rw [List.map_map]
  rw [map_entries _ (nodup_keys_foldl l [] (by simp)) (facetTAC ∘ mergeEntry now)]
  apply List.map_congr_left
  intro t ht
  have ht0 : ¬ (t = "") := by
    rcases (mem_keys_foldl l [] t).mp ht with hm | hm
    · simp at hm
    · exact hm.1
  simp only [Function.comp]
  rw [groupOf_foldl l [] t ht0]
  rfl

/-- Swapping the two concatenated inputs permutes the type keys. -/
lemma keys_perm_swap (v g : List RoofFacet) :
    ((List.foldl (fun acc f => if f.type = "" then acc else addToGroup acc f) [] (v ++ g)).map
        Prod.fst).Perm
      ((List.foldl (fun acc f => if f.type = "" then acc else addToGroup acc f) [] (g ++ v)).map
        Prod.fst) := by
  refine (List.perm_ext_iff_of_nodup (nodup_keys_foldl _ _ (by simp))
    (nodup_keys_foldl _ _ (by simp))).mpr ?_
  intro t
  rw [mem_keys_foldl, mem_keys_foldl]
  simp only [List.mem_append]
  constructor
  · rintro (hm | ⟨ht, f, hf, hft⟩)
    · exact absurd hm (by simp)
    · exact Or.inr ⟨ht, f, hf.symm, hft⟩
  · rintro (hm | ⟨ht, f, hf, hft⟩)
    · exact absurd hm (by simp)
    · exact Or.inr ⟨ht, f, hf.symm, hft⟩

end Helpers

/-! ### The claims -/

section Claims

open DualLearningEngine

/-- C1: evaluating `createConsensus` at estimates 1000 and 10000 (the claim's
failing input) shows that the code computes `modelAgreement = -7/11`, a
negative value: the formula `1 - |estA - estB| / avg(estA, estB)` is never
clamped to `[0, 1]`, contradicting the claim and the `0-1 scale` comment on
the `ConsensusResult.modelAgreement` field itself. -/
theorem c1_agreement_unclamped_at_failing_input :
    (createConsensus 0 (testPrediction 1000 [] 1 0) (testPrediction 10000 [] 1 0)
        imageInputPlain geometryInputPlain).modelAgreement = -7/11
    ∧ ((-7 : ℚ)/11) < 0 := by
  constructor
  · norm_num [createConsensus, testPrediction, imageInputPlain, geometryInputPlain]
  · norm_num

/-- C2 counterexample: with both facet lists empty and both estimates 1000,
the weighted consensus estimate is 1000, but the substituted facet's area is
the hard-coded 2000 — not the consensus estimate as the claim states. -/
theorem c2_default_area_counterexample :
    (createConsensus 0 (testPrediction 1000 [] 1 0) (testPrediction 1000 [] 1 0)
        imageInputPlain geometryInputPlain).finalPrediction.facets.map RoofFacet.area = [2000]
    ∧ (createConsensus 0 (testPrediction 1000 [] 1 0) (testPrediction 1000 [] 1 0)
        imageInputPlain geometryInputPlain).estimate = 1000
    ∧ (2000 : ℚ) ≠ 1000 := by
  refine ⟨?_, ?_, by norm_num⟩
  · norm_num [createConsensus, mergeFacets, defaultFacet, testPrediction, imageInputPlain,
      geometryInputPlain]
  · norm_num [createConsensus, calculateVisionWeight, calculateGeometryWeight, truthyGt,
      truthyStr, truthyNum, testPrediction, imageInputPlain, geometryInputPlain,
      show (TimeOfDay.morning = TimeOfDay.afternoon) = False from by simp]

/-- C2 as amended: whenever both estimators return empty facet lists, the
merged facet list is exactly the one default facet with type `main` and
confidence 0.5 — but its area is the fixed constant 2000, which equals the
weighted consensus estimate only coincidentally. -/
theorem c2_default_facet_substitution (now : ℕ) (vp gp : ModelPrediction)
    (ii : ImageAnalysisInput) (gi : GeometryAnalysisInput)
    (hv : vp.facets = []) (hg : gp.facets = []) :
    (createConsensus now vp gp ii gi).finalPrediction.facets = [defaultFacet]
    ∧ defaultFacet.type = "main"
    ∧ defaultFacet.confidence = 0.5
    ∧ defaultFacet.area = 2000 := by
  refine ⟨?_, rfl, rfl, rfl⟩
  simp [createConsensus, mergeFacets, hv, hg]

/-- C2 witness: the amended theorem applied at the concrete empty-facet
predictions. -/
theorem c2_default_facet_substitution_witness :
    (testPrediction 1000 [] 1 0).facets = []
    ∧ (createConsensus 0 (testPrediction 1000 [] 1 0) (testPrediction 1000 [] 1 0)
        imageInputPlain geometryInputPlain).finalPrediction.facets = [defaultFacet] :=
  ⟨rfl, (c2_default_facet_substitution 0 (testPrediction 1000 [] 1 0)
      (testPrediction 1000 [] 1 0) imageInputPlain geometryInputPlain rfl rfl).1⟩

/-- C3: if either estimator's backend call fails, `predict` rejects with the
estimator's own annotated error — `Vision model error:` when the vision call
fails, `Geometry model error:` when the vision call succeeds and the
geometry call fails — so no single-estimator result is ever returned and the
error identifies the failing estimator. -/
theorem c3_estimator_failure_propagation (now month hour : ℕ) (vr gr : InvokeResult)
    (address : String) (satelliteImage : Option String) (ve ge : ℚ) :
    (∀ m, vr = InvokeResult.failure m →
        DualLearningEngine.predict now month hour vr gr address satelliteImage ve ge
          = Except.error ("Vision model error: " ++ m))
    ∧ (∀ d m, vr = InvokeResult.success d → gr = InvokeResult.failure m →
        DualLearningEngine.predict now month hour vr gr address satelliteImage ve ge
          = Except.error ("Geometry model error: " ++ m)) := by
  constructor
  · intro m hm
    subst hm
    rfl
  · intro d m hd hm
    subst hd
    subst hm
    rfl

/-- C3 witness: the propagation theorem applied at a concrete failing
backend on each side. -/
theorem c3_estimator_failure_propagation_witness :
    DualLearningEngine.predict 0 5 13 (InvokeResult.failure "boom")
        (InvokeResult.success c6GeometryBase) "1 Main St" none 0 0
      = Except.error ("Vision model error: " ++ "boom")
    ∧ DualLearningEngine.predict 0 5 13 (InvokeResult.success c6VisionBase)
        (InvokeResult.failure "boom") "1 Main St" none 0 0
      = Except.error ("Geometry model error: " ++ "boom") :=
  ⟨(c3_estimator_failure_propagation 0 5 13 (InvokeResult.failure "boom")
      (InvokeResult.success c6GeometryBase) "1 Main St" none 0 0).1 "boom" rfl,
   (c3_estimator_failure_propagation 0 5 13 (InvokeResult.success c6VisionBase)
      (InvokeResult.failure "boom") "1 Main St" none 0 0).2 c6VisionBase "boom" rfl rfl⟩

/-- C4 counterexample: with one `main` facet on each side, running the same
reconciliation at `Date.now()` stamps 0 and 1 yields different
`ConsensusResult` values (the synthetic merged-facet id embeds the stamp),
so the reconciliation is not a function of the two estimates alone. -/
theorem c4_time_dependence_counterexample :
    createConsensus 0 (testPrediction 1200 [facetMainA] 1 0)
        (testPrediction 1100 [facetMainB] 1 0) imageInputPlain geometryInputPlain
      ≠ createConsensus 1 (testPrediction 1200 [facetMainA] 1 0)
        (testPrediction 1100 [facetMainB] 1 0) imageInputPlain geometryInputPlain := by
  intro h
  have h2 := congrArg (fun c => c.finalPrediction.facets.map RoofFacet.id) h
  simp [createConsensus, mergeFacets, facetsByType, addToGroup, mergeEntry,
    testPrediction, facetMainA, facetMainB] at h2
  exact absurd h2 (by decide)

/-- C4 as amended: two runs of `createConsensus` on identical inputs at any
two `Date.now()` stamps produce `ConsensusResult`s that are identical after
erasing the facet ids — the timestamp-minted ids of merged facets are the
only non-deterministic part of the reconciliation. -/
theorem c4_deterministic_up_to_ids (n1 n2 : ℕ) (vp gp : ModelPrediction)
    (ii : ImageAnalysisInput) (gi : GeometryAnalysisInput) :
    eraseIds (createConsensus n1 vp gp ii gi) = eraseIds (createConsensus n2 vp gp ii gi) := by
  have hm := mergeFacets_map_stripId n1 n2 vp.facets gp.facets
  obtain ⟨h1, h2, h3, h4, h5⟩ := facetObservations_eq _ _ hm
  simp only [eraseIds, createConsensus, ConsensusResult.mk.injEq, FinalPrediction.mk.injEq,
    ReportSummary.mk.injEq, hm, h1, h2, h3, h4, h5, and_self, and_true, true_and]

/-- C5 counterexample: swapping which side contributes the single `main`
facet changes the merged facet's pitch (taken from the first facet of the
concatenation), so the merge is not commutative on all non-id fields. -/
theorem c5_swap_pitch_counterexample :
    (mergeFacets 0 [facetMainA] [facetMainB]).map RoofFacet.pitch = ["6/12"]
    ∧ (mergeFacets 0 [facetMainB] [facetMainA]).map RoofFacet.pitch = ["8/12"] := by
  constructor
  · simp [mergeFacets, facetsByType, addToGroup, mergeEntry, facetMainA, facetMainB]
  · simp [mergeFacets, facetsByType, addToGroup, mergeEntry, facetMainA, facetMainB]

/-- C5 as amended: swapping the vision and geometry facet lists yields the
same merged facets up to id renaming as far as type, area and confidence are
concerned (the merged pitch and polygon are taken from the first group
member of the concatenation and may differ). -/
theorem c5_merge_commutative_up_to_ids (now : ℕ) (v g : List RoofFacet) :
    ((mergeFacets now v g).map facetTAC).Perm ((mergeFacets now g v).map facetTAC) := by
  by_cases hvg : v.length = 0 ∧ g.length = 0
  · unfold mergeFacets
    rw [if_pos hvg, if_pos ⟨hvg.2, hvg.1⟩]
  · have hgv : ¬ (g.length = 0 ∧ v.length = 0) := fun h => hvg ⟨h.2, h.1⟩
    unfold mergeFacets
    rw [if_neg hvg, if_neg hgv]
    unfold facetsByType
    rw [mergedTAC_eq, mergedTAC_eq]
    have hswap : (fun t => facetTAC (mergeEntry now (t, (v ++ g).filter (fun f => f.type = t))))
        = fun t => facetTAC (mergeEntry now (t, (g ++ v).filter (fun f => f.type = t))) := by
      funext t
      exact facetTAC_mergeEntry_perm now t _ _ (List.perm_append_comm.filter _)
    rw [hswap]
    exact (keys_perm_swap v g).map _

/-- C6 counterexample: on concrete inputs where the vision estimator's own
risk factors are `["Poor satellite image quality"]` and the geometry
estimator's are empty, the consensus risk-factor list is instead the
keyword-filtered reasoning line `["Identified 1 uncertainty factors"]`:
the engine filters reasoning text rather than taking the estimators' risk
factors. -/
theorem c6_risk_factors_counterexample :
    (createConsensus 0 c6VisionPrediction c6GeometryPrediction c6VisionInput
        c6GeometryInput).finalPrediction.uncertaintyAnalysis.riskFactors
      = ["Identified 1 uncertainty factors"]
    ∧ (VisionModel.calculateUncertainty c6VisionInput c6VisionBase).riskFactors
        ++ (GeometryModel.calculateGeometricUncertainty c6GeometryInput c6GeometryBase).riskFactors
        ++ (if |c6VisionPrediction.estimate - c6GeometryPrediction.estimate|
              > disagreementThreshold then ["Model disagreement detected"] else [])
      = ["Poor satellite image quality"]
    ∧ (["Identified 1 uncertainty factors"] : List String) ≠ ["Poor satellite image quality"] := by
  have hv : c6VisionPrediction.reasoning
      = ["Analyzed satellite imagery for 742 Evergreen Terrace",
         "Detected 1 roof facets",
         "Identified 1 uncertainty factors",
         "Vision model confidence: 40%"] := by
    norm_num [c6VisionPrediction, VisionModel.makePrediction, VisionModel.generateVisionReasoning,
      VisionModel.calculateUncertainty, VisionModel.calculateVisionConfidence,
      truthyLt, truthyGt, complexityGt, c6VisionBase, c6VisionInput, c6Facet, jround,
      show (Seasonality.summer = Seasonality.winter) = False from by simp,
      show (TimeOfDay.afternoon = TimeOfDay.morning
        ∨ TimeOfDay.afternoon = TimeOfDay.evening) = False from by simp]
    decide
  have hg : c6GeometryPrediction.reasoning
      = ["Analyzed structural footprint for 742 Evergreen Terrace",
         "Applied Colonial architectural style adjustments",
         "Building age suggests traditional construction methods",
         "Roof area consistent with neighborhood patterns",
         "Detected 1 geometric sections",
         "Geometry model confidence: 100%"] := by
    norm_num [c6GeometryPrediction, GeometryModel.makePrediction,
      GeometryModel.generateGeometryReasoning, GeometryModel.calculateGeometricUncertainty,
      GeometryModel.calculateGeometryConfidence, truthyLt, truthyStr, truthyNum, complexityGt,
      c6GeometryBase, c6GeometryInput, c6Facet, jround, max_def, min_def,
      show ("Colonial" = "") = False from eq_false (by decide),
      show ("fp" = "") = False from eq_false (by decide)]
    decide
  have he1 : c6VisionPrediction.estimate = 1950 := rfl
  have he2 : c6GeometryPrediction.estimate = 2000 := rfl
  refine ⟨?_, ?_, by decide⟩
  · have h1 : (createConsensus 0 c6VisionPrediction c6GeometryPrediction c6VisionInput
        c6GeometryInput).finalPrediction.uncertaintyAnalysis.riskFactors
      = extractRiskFactors c6VisionPrediction.reasoning
        ++ extractRiskFactors c6GeometryPrediction.reasoning
        ++ (if |c6VisionPrediction.estimate - c6GeometryPrediction.estimate|
              > disagreementThreshold then ["Model disagreement detected"] else []) := rfl
    rw [h1, hv, hg, he1, he2]
    norm_num [disagreementThreshold]
    decide
  · rw [he1, he2]
    norm_num [VisionModel.calculateUncertainty, GeometryModel.calculateGeometricUncertainty,
      truthyLt, truthyStr, truthyNum, complexityGt, c6VisionInput, c6VisionBase,
      c6GeometryInput, c6GeometryBase, c6Facet, disagreementThreshold,
      show (Seasonality.summer = Seasonality.winter) = False from by simp,
      show (TimeOfDay.afternoon = TimeOfDay.morning
        ∨ TimeOfDay.afternoon = TimeOfDay.evening) = False from by simp,
      show ("Colonial" = "") = False from eq_false (by decide),
      show ("fp" = "") = False from eq_false (by decide)]

/-- C6 as amended: the consensus risk-factor list is the concatenation of
the reasoning lines of both predictions that contain one of the keywords
`risk`, `uncertainty`, `shadow`, `complex`, plus the entry
`Model disagreement detected` exactly when the absolute area difference
exceeds the 100 sq ft disagreement threshold. -/
theorem c6_risk_factors_amended (now : ℕ) (vp gp : ModelPrediction)
    (ii : ImageAnalysisInput) (gi : GeometryAnalysisInput) :
    (createConsensus now vp gp ii gi).finalPrediction.uncertaintyAnalysis.riskFactors
      = extractRiskFactors vp.reasoning ++ extractRiskFactors gp.reasoning
        ++ (if |vp.estimate - gp.estimate| > disagreementThreshold then
              ["Model disagreement detected"] else [])
    ∧ ("Model disagreement detected"
        ∈ (createConsensus now vp gp ii gi).finalPrediction.uncertaintyAnalysis.riskFactors
      ↔ |vp.estimate - gp.estimate| > disagreementThreshold) := by
  have h1 : (createConsensus now vp gp ii gi).finalPrediction.uncertaintyAnalysis.riskFactors
      = extractRiskFactors vp.reasoning ++ extractRiskFactors gp.reasoning
        ++ (if |vp.estimate - gp.estimate| > disagreementThreshold then
              ["Model disagreement detected"] else []) := rfl
  refine ⟨h1, ?_⟩
  rw [h1]
  constructor
  · intro hm
    by_cases hgt : |vp.estimate - gp.estimate| > disagreementThreshold
    · exact hgt
    · simp only [if_neg hgt, List.append_nil] at hm
      rcases List.mem_append.mp hm with h | h
      · exact absurd h (mdd_not_mem _)
      · exact absurd h (mdd_not_mem _)
  · intro hgt
    simp [if_pos hgt]

/-- C7 counterexample: at the scenario values `estA = estB = 2000` and both
confidences 0.9, the model agreement is 1 and the label is `high`, yet a
learning flag is still produced when the vision uncertainty is 0.6 — the
scenario's "no learning flag" is not implied by those four values alone. -/
theorem c7_learning_flag_counterexample :
    (createConsensus 0 (testPrediction 2000 [] 0.9 0.6) (testPrediction 2000 [] 0.9 0)
        imageInputPlain geometryInputPlain).modelAgreement = 1
    ∧ (createConsensus 0 (testPrediction 2000 [] 0.9 0.6) (testPrediction 2000 [] 0.9 0)
        imageInputPlain geometryInputPlain).confidence = ConfidenceLevel.high
    ∧ (createConsensus 0 (testPrediction 2000 [] 0.9 0.6) (testPrediction 2000 [] 0.9 0)
        imageInputPlain geometryInputPlain).learningFlag ≠ none := by
  refine ⟨?_, ?_, ?_⟩
  · norm_num [createConsensus, testPrediction]
  · norm_num [createConsensus, testPrediction]
  · norm_num [createConsensus, assessLearningNeed, disagreementThreshold, testPrediction,
      show (ConfidenceLevel.high = ConfidenceLevel.low) = False from by simp]
    simp

/-- C7 as amended: the label of `createConsensus` is `high` exactly when
the computed agreement exceeds 0.9 and both confidences exceed 0.8,
otherwise `medium` exactly when the agreement exceeds 0.8 or both
confidences exceed 0.7, otherwise `low`; and at the scenario values
(estimates 2000, confidences 0.9) the agreement is 1, the label is `high`,
and no learning flag is produced provided both estimator uncertainties are
at most 0.5. -/
theorem c7_confidence_classification (now : ℕ) (vp gp : ModelPrediction)
    (ii : ImageAnalysisInput) (gi : GeometryAnalysisInput) :
    ((createConsensus now vp gp ii gi).confidence = ConfidenceLevel.high
      ↔ (1 - |vp.estimate - gp.estimate| / ((vp.estimate + gp.estimate) / 2) > 0.9
          ∧ vp.confidence > 0.8 ∧ gp.confidence > 0.8))
    ∧ ((createConsensus now vp gp ii gi).confidence = ConfidenceLevel.medium
      ↔ (¬ (1 - |vp.estimate - gp.estimate| / ((vp.estimate + gp.estimate) / 2) > 0.9
            ∧ vp.confidence > 0.8 ∧ gp.confidence > 0.8)
        ∧ (1 - |vp.estimate - gp.estimate| / ((vp.estimate + gp.estimate) / 2) > 0.8
            ∨ (vp.confidence > 0.7 ∧ gp.confidence > 0.7))))
    ∧ ((createConsensus now vp gp ii gi).confidence = ConfidenceLevel.low
      ↔ (¬ (1 - |vp.estimate - gp.estimate| / ((vp.estimate + gp.estimate) / 2) > 0.9
            ∧ vp.confidence > 0.8 ∧ gp.confidence > 0.8)
        ∧ ¬ (1 - |vp.estimate - gp.estimate| / ((vp.estimate + gp.estimate) / 2) > 0.8
            ∨ (vp.confidence > 0.7 ∧ gp.confidence > 0.7))))
    ∧ (vp.estimate = 2000 → gp.estimate = 2000 → vp.confidence = 0.9 → gp.confidence = 0.9 →
        vp.uncertainty ≤ 0.5 → gp.uncertainty ≤ 0.5 →
        (createConsensus now vp gp ii gi).modelAgreement = 1
        ∧ (createConsensus now vp gp ii gi).confidence = ConfidenceLevel.high
        ∧ (createConsensus now vp gp ii gi).learningFlag = none) := by
  have hc : (createConsensus now vp gp ii gi).confidence =
      (if (1 - |vp.estimate - gp.estimate| / ((vp.estimate + gp.estimate) / 2) > 0.9
            ∧ vp.confidence > 0.8 ∧ gp.confidence > 0.8) then ConfidenceLevel.high
       else if (1 - |vp.estimate - gp.estimate| / ((vp.estimate + gp.estimate) / 2) > 0.8
            ∨ (vp.confidence > 0.7 ∧ gp.confidence > 0.7)) then ConfidenceLevel.medium
       else ConfidenceLevel.low) := rfl
  refine ⟨?_, ?_, ?_, ?_⟩
  · rw [hc]; split_ifs <;> simp_all
  · rw [hc]; split_ifs <;> simp_all
  · rw [hc]; split_ifs <;> simp_all
  · intro hve hge hvc hgc huv hug
    refine ⟨?_, ?_, ?_⟩
    · show 1 - |vp.estimate - gp.estimate| / ((vp.estimate + gp.estimate) / 2) = 1
      rw [hve, hge]; norm_num
    · rw [hc, hve, hge, hvc, hgc]; norm_num
    · show assessLearningNeed (|vp.estimate - gp.estimate|)
        (createConsensus now vp gp ii gi).confidence vp gp = none
      rw [hc, hve, hge, hvc, hgc]
      norm_num [assessLearningNeed, disagreementThreshold,
        show (ConfidenceLevel.high = ConfidenceLevel.low) = False from by simp]
      intro h
      rcases h with h | h
      · exact absurd h (not_lt.mpr (by linarith))
      · exact absurd h (not_lt.mpr (by linarith))

/-- C7 witness: the amended classification theorem applied at the concrete
scenario predictions with uncertainty 0.4. -/
theorem c7_confidence_classification_witness :
    (createConsensus 0 (testPrediction 2000 [] 0.9 0.4) (testPrediction 2000 [] 0.9 0.4)
        imageInputPlain geometryInputPlain).modelAgreement = 1
    ∧ (createConsensus 0 (testPrediction 2000 [] 0.9 0.4) (testPrediction 2000 [] 0.9 0.4)
        imageInputPlain geometryInputPlain).confidence = ConfidenceLevel.high
    ∧ (createConsensus 0 (testPrediction 2000 [] 0.9 0.4) (testPrediction 2000 [] 0.9 0.4)
        imageInputPlain geometryInputPlain).learningFlag = none :=
  (c7_confidence_classification 0 (testPrediction 2000 [] 0.9 0.4)
      (testPrediction 2000 [] 0.9 0.4) imageInputPlain geometryInputPlain).2.2.2
    rfl rfl rfl rfl (by norm_num [testPrediction]) (by norm_num [testPrediction])

/-- C8: each estimator's weight is `max ((0.5 + bonuses) * confidence) 0.1`
with exactly the claimed bonuses (vision: +0.2 for truthy image quality
above 0.8, +0.1 for afternoon; geometry: +0.15 for footprint data, +0.1 for
a truthy building age, +0.15 for neighborhood context), and both weights are
always at least 0.1. -/
theorem c8_weight_formula_and_floor (vp gp : ModelPrediction) (ii : ImageAnalysisInput)
    (gi : GeometryAnalysisInput) :
    calculateVisionWeight vp ii
      = max ((0.5 + (if truthyGt ii.imageQuality 0.8 then 0.2 else 0)
          + (if ii.timeOfDay = some TimeOfDay.afternoon then 0.1 else 0)) * vp.confidence) 0.1
    ∧ calculateGeometryWeight gp gi
      = max ((0.5 + (if truthyStr gi.footprintData then 0.15 else 0)
          + (if truthyNum gi.buildingAge then 0.1 else 0)
          + (if gi.neighborhoodContext.isSome then 0.15 else 0)) * gp.confidence) 0.1
    ∧ 0.1 ≤ calculateVisionWeight vp ii
    ∧ 0.1 ≤ calculateGeometryWeight gp gi := by
  refine ⟨?_, ?_, le_max_right _ _, le_max_right _ _⟩
  · unfold calculateVisionWeight
    split_ifs <;> norm_num
  · unfold calculateGeometryWeight
    split_ifs <;> norm_num

/-- C9: on a vision input with a present positive image quality, the
uncertainty score is the exact sum of the four claimed penalties (+0.3 for
quality below 0.7, +0.1 for winter, +0.15 for morning or evening, +0.2 for
more than 8 facets), and both ends of the confidence interval stay within
30 percent of the (positive) base estimate. -/
theorem c9_vision_uncertainty_penalties (input : ImageAnalysisInput)
    (prediction : BasePrediction) (q : ℚ)
    (hq : input.imageQuality = some q) (h0 : 0 < q) (hA : 0 < prediction.totalArea) :
    (VisionModel.calculateUncertainty input prediction).variance
      = (if q < 0.7 then 0.3 else 0)
        + (if input.seasonality = some Seasonality.winter then 0.1 else 0)
        + (if input.timeOfDay = some TimeOfDay.morning
              ∨ input.timeOfDay = some TimeOfDay.evening then 0.15 else 0)
        + (if prediction.facets.length > 8 then 0.2 else 0)
    ∧ (VisionModel.calculateUncertainty input prediction).confidenceRange.max
        ≤ prediction.totalArea * 1.3
    ∧ prediction.totalArea * 0.7
        ≤ (VisionModel.calculateUncertainty input prediction).confidenceRange.min := by
  have hne : q ≠ 0 := ne_of_gt h0
  refine ⟨?_, ?_, ?_⟩
  · simp [VisionModel.calculateUncertainty, truthyLt, hq, hne]
  · simp only [VisionModel.calculateUncertainty]
    rw [if_neg (ne_of_gt hA)]
    exact (visionRange_aux _ _ (le_of_lt hA)).1
  · simp only [VisionModel.calculateUncertainty]
    rw [if_neg (ne_of_gt hA)]
    exact (visionRange_aux _ _ (le_of_lt hA)).2

/-- C9 witness: the penalty theorem applied at the concrete vision fixture
(quality 0.5, summer, afternoon, one facet, base area 1950). -/
theorem c9_vision_uncertainty_penalties_witness :
    (VisionModel.calculateUncertainty c6VisionInput c6VisionBase).variance
      = (if (0.5 : ℚ) < 0.7 then 0.3 else 0)
        + (if c6VisionInput.seasonality = some Seasonality.winter then 0.1 else 0)
        + (if c6VisionInput.timeOfDay = some TimeOfDay.morning
              ∨ c6VisionInput.timeOfDay = some TimeOfDay.evening then 0.15 else 0)
        + (if c6VisionBase.facets.length > 8 then 0.2 else 0)
    ∧ (VisionModel.calculateUncertainty c6VisionInput c6VisionBase).confidenceRange.max
        ≤ c6VisionBase.totalArea * 1.3
    ∧ c6VisionBase.totalArea * 0.7
        ≤ (VisionModel.calculateUncertainty c6VisionInput c6VisionBase).confidenceRange.min :=
  c9_vision_uncertainty_penalties c6VisionInput c6VisionBase 0.5 rfl (by norm_num)
    (by norm_num [c6VisionBase])

/-- C10: when the image quality is undefined or zero, the vision estimator
adds no image-quality penalty (no `Poor satellite image quality` risk
factor, no +0.3 term even though 0 is below 0.7) and its confidence is not
multiplied by the image quality — the missing or zero quality is silently
treated as unproblematic. -/
theorem c10_missing_image_quality_not_penalized (input : ImageAnalysisInput)
    (prediction : BasePrediction)
    (h : input.imageQuality = none ∨ input.imageQuality = some 0) :
    (VisionModel.calculateUncertainty input prediction).variance
      = (if input.seasonality = some Seasonality.winter then 0.1 else 0)
        + (if input.timeOfDay = some TimeOfDay.morning
              ∨ input.timeOfDay = some TimeOfDay.evening then 0.15 else 0)
        + (if prediction.facets.length > 8 then 0.2 else 0)
    ∧ "Poor satellite image quality"
        ∉ (VisionModel.calculateUncertainty input prediction).riskFactors
    ∧ VisionModel.calculateVisionConfidence prediction input
      = max ((if prediction.facets.length > 6 then (0.8 : ℚ) * 0.9 else 0.8)
          * (if complexityGt prediction.reportSummary 0.8 then 0.85 else 1)) 0.3 := by
  rcases h with h | h
  · refine ⟨?_, ?_, ?_⟩
    · simp [VisionModel.calculateUncertainty, truthyLt, h]
    · simp [VisionModel.calculateUncertainty, truthyLt, h]
    · simp only [VisionModel.calculateVisionConfidence, h]
      cases hrs : prediction.reportSummary with
      | none =>
        simp only [complexityGt, hrs, Bool.false_eq_true, if_false]
        split_ifs <;> norm_num [max_def]
      | some rs =>
        simp only [complexityGt, hrs, decide_eq_true_eq]
        split_ifs <;> norm_num [max_def]
  · refine ⟨?_, ?_, ?_⟩
    · simp [VisionModel.calculateUncertainty, truthyLt, h]
    · simp [VisionModel.calculateUncertainty, truthyLt, h]
    · simp only [VisionModel.calculateVisionConfidence, h,
        show ((0 : ℚ) ≠ 0) = False from by simp, if_false]
      cases hrs : prediction.reportSummary with
      | none =>
        simp only [complexityGt, hrs, Bool.false_eq_true, if_false]
        split_ifs <;> norm_num [max_def]
      | some rs =>
        simp only [complexityGt, hrs, decide_eq_true_eq]
        split_ifs <;> norm_num [max_def]

/-- C10 witness: the theorem applied at the concrete vision input with no
image quality. -/
theorem c10_missing_image_quality_not_penalized_witness :
    (VisionModel.calculateUncertainty imageInputNoQuality c6VisionBase).variance
      = (if imageInputNoQuality.seasonality = some Seasonality.winter then 0.1 else 0)
        + (if imageInputNoQuality.timeOfDay = some TimeOfDay.morning
              ∨ imageInputNoQuality.timeOfDay = some TimeOfDay.evening then 0.15 else 0)
        + (if c6VisionBase.facets.length > 8 then 0.2 else 0)
    ∧ "Poor satellite image quality"
        ∉ (VisionModel.calculateUncertainty imageInputNoQuality c6VisionBase).riskFactors
    ∧ VisionModel.calculateVisionConfidence c6VisionBase imageInputNoQuality
      = max ((if c6VisionBase.facets.length > 6 then (0.8 : ℚ) * 0.9 else 0.8)
          * (if complexityGt c6VisionBase.reportSummary 0.8 then 0.85 else 1)) 0.3 :=
  c10_missing_image_quality_not_penalized imageInputNoQuality c6VisionBase (Or.inl rfl)

end Claims

end RoofIQ
